import Mathlib

/-
Verification of the networkmanager client core of the ironbar repository.

Shallow embedding: the state-aggregation functions of
src/clients/networkmanager/state.rs, the registry initialization and the
list-watcher resync of src/clients/networkmanager/mod.rs, and the
strength-bucketing of src/modules/networkmanager.rs are translated into
executable Lean definitions.  A remote property read that the source performs
through a fallible dbus call is modelled as an `Except String` value stored in
the proxy (or supplied by a bus environment): `.ok v` is a successful read,
`.error e` a transient QueryError, exactly where the source has a `?`.
-/

deriving instance DecidableEq for Except

namespace Ironbar

/-- A dbus object path (registry key). -/
abbrev Path := String

/-- Result of a fallible remote query (`Result<T>` in the source, propagated
with the question-mark operator). -/
abbrev Q (α : Type) := Except String α

/-- Modelled from the spec: the device-type enum of the repository's dbus.rs,
which is not among the staged source files.  The spec names Ethernet, Wi-Fi
and Modem device types; `generic` stands for every other type. -/
inductive DeviceType where
  | ethernet
  | wifi
  | modem
  | generic
deriving DecidableEq

/-- Modelled from the spec: the device-state enum of the missing dbus.rs.
The spec's data model gives a device an enabled/activated state and its
cellular policy distinguishes activated, enabled-but-not-activated and
present-but-not-enabled devices, so the model keeps those three classes. -/
inductive DeviceState where
  | notEnabled
  | enabledNotActivated
  | activated
deriving DecidableEq

/-- Modelled from the spec: the is-enabled predicate on device states used by
the aggregation functions; an activated device is in particular enabled. -/
def DeviceState.is_enabled : DeviceState → Bool
  | .notEnabled => false
  | .enabledNotActivated => true
  | .activated => true

/-- WiredState from state.rs. -/
inductive WiredState where
  | Connected
  | Disconnected
  | NotPresent
  | Unknown
deriving DecidableEq

/-- WifiConnectedState from state.rs.  The source field ip4_prefix is called
ip4PrefixBits here. -/
structure WifiConnectedState where
  ssid : String
  bssid : String
  strength : Nat
  ip4_address : String
  ip4PrefixBits : Nat
deriving DecidableEq

/-- WifiState from state.rs. -/
inductive WifiState where
  | Connected (s : WifiConnectedState)
  | Disconnected
  | Disabled
  | NotPresent
  | Unknown
deriving DecidableEq

/-- CellularState from state.rs. -/
inductive CellularState where
  | Connected
  | Disconnected
  | Disabled
  | NotPresent
  | Unknown
deriving DecidableEq

/-- VpnConnectedState from state.rs. -/
structure VpnConnectedState where
  name : String
deriving DecidableEq

/-- VpnState from state.rs. -/
inductive VpnState where
  | Connected (s : VpnConnectedState)
  | Disconnected
  | Unknown
deriving DecidableEq

/-- State from state.rs: the published snapshot. -/
structure State where
  wired : WiredState
  wifi : WifiState
  cellular : CellularState
  vpn : VpnState
deriving DecidableEq

/-- A device proxy: its bound path and its remotely read properties, each a
fallible query result. -/
structure DeviceDbusProxy where
  path : Path
  device_type : Q DeviceType
  state : Q DeviceState
  ip4_config : Q Path
deriving DecidableEq

/-- An active-connection proxy: its bound path and its Type property. -/
structure ActiveConnectionDbusProxy where
  path : Path
  type_ : Q String
deriving DecidableEq

/-- determine_wired_state's loop over the device registry (state.rs lines
70-93): the first Ethernet device whose state is enabled short-circuits to
Connected; `present` records whether an Ethernet device was seen. -/
def wiredLoop : List DeviceDbusProxy → Bool → Q WiredState
  | [], present => .ok (if present then .Disconnected else .NotPresent)
  | d :: rest, present =>
    match d.device_type with
    | .error e => .error e
    | .ok t =>
      if t = DeviceType.ethernet then
        match d.state with
        | .error e => .error e
        | .ok s =>
          if s.is_enabled then .ok WiredState.Connected
          else wiredLoop rest true
      else wiredLoop rest present

/-- determine_wired_state from state.rs. -/
def determine_wired_state (devices : List DeviceDbusProxy) : Q WiredState :=
  wiredLoop devices false

/-- determine_cellular_state's loop (state.rs lines 206-235); the source reads
the state property twice, once for is_enabled and once for the comparison with
Activated, and the embedding keeps both reads. -/
def cellularLoop : List DeviceDbusProxy → Bool → Bool → Q CellularState
  | [], present, enabled =>
    .ok (if enabled then .Disconnected
         else if present then .Disabled
         else .NotPresent)
  | d :: rest, present, enabled =>
    match d.device_type with
    | .error e => .error e
    | .ok t =>
      if t = DeviceType.modem then
        match d.state with
        | .error e => .error e
        | .ok s =>
          if s.is_enabled then
            match d.state with
            | .error e => .error e
            | .ok s2 =>
              if s2 = DeviceState.activated then .ok CellularState.Connected
              else cellularLoop rest true true
          else cellularLoop rest true enabled
      else cellularLoop rest present enabled

/-- determine_cellular_state from state.rs. -/
def determine_cellular_state (devices : List DeviceDbusProxy) : Q CellularState :=
  cellularLoop devices false false

/-- determine_vpn_state's loop (state.rs lines 237-251): the first active
connection whose Type is "vpn" or "wireguard" yields Connected with the
placeholder name "unknown". -/
def vpnLoop : List ActiveConnectionDbusProxy → Q VpnState
  | [] => .ok VpnState.Disconnected
  | c :: rest =>
    match c.type_ with
    | .error e => .error e
    | .ok t =>
      if t = "vpn" ∨ t = "wireguard" then
        .ok (VpnState.Connected ⟨"unknown"⟩)
      else vpnLoop rest

/-- determine_vpn_state from state.rs. -/
def determine_vpn_state (active_connections : List ActiveConnectionDbusProxy) : Q VpnState :=
  vpnLoop active_connections

/-- A pure device description (type and state), the universe the spec's
"for every device set D" ranges over. -/
structure DeviceSpec where
  dtype : DeviceType
  dstate : DeviceState
deriving DecidableEq

/-- A device proxy all of whose queries succeed, answering with the given
pure description. -/
def healthyDevice (d : DeviceSpec) : DeviceDbusProxy :=
  ⟨"/device", .ok d.dtype, .ok d.dstate, .ok "/ipc"⟩

/-- An active-connection proxy whose Type query succeeds with `t`. -/
def healthyConnection (t : String) : ActiveConnectionDbusProxy :=
  ⟨"/active", .ok t⟩

/-- The wired policy exactly as claim C5 words it: Connected iff an
Ethernet-type device is in activated state. -/
def wiredPolicySpec (ds : List DeviceSpec) : WiredState :=
  if ds.any (fun d => d.dtype == DeviceType.ethernet && d.dstate == DeviceState.activated) then
    WiredState.Connected
  else if ds.any (fun d => d.dtype == DeviceType.ethernet) then
    WiredState.Disconnected
  else
    WiredState.NotPresent

/-- The four-tier cellular policy exactly as claim C6 words it. -/
def cellularPolicySpec (ds : List DeviceSpec) : CellularState :=
  if ds.any (fun d => d.dtype == DeviceType.modem && d.dstate == DeviceState.activated) then
    CellularState.Connected
  else if ds.any (fun d =>
      d.dtype == DeviceType.modem && d.dstate.is_enabled
        && !(d.dstate == DeviceState.activated)) then
    CellularState.Disconnected
  else if ds.any (fun d => d.dtype == DeviceType.modem && !d.dstate.is_enabled) then
    CellularState.Disabled
  else
    CellularState.NotPresent

lemma wiredLoop_map_healthy (ds : List DeviceSpec) (present : Bool) :
    wiredLoop (ds.map healthyDevice) present
      = .ok (if ds.any (fun d => d.dtype == DeviceType.ethernet && d.dstate.is_enabled) then
               WiredState.Connected
             else if present || ds.any (fun d => d.dtype == DeviceType.ethernet) then
               WiredState.Disconnected
             else
               WiredState.NotPresent) := by
  induction ds generalizing present with
  | nil => cases present <;> simp [wiredLoop]
  | cons d rest ih =>
    by_cases ht : d.dtype = DeviceType.ethernet
    · by_cases hs : d.dstate.is_enabled
      · simp [wiredLoop, healthyDevice, ht, hs]
      · simp [wiredLoop, healthyDevice, ht, hs, ih]
    · simp [wiredLoop, healthyDevice, ht, ih]

lemma cellularLoop_map_healthy (ds : List DeviceSpec) (present enabled : Bool) :
    cellularLoop (ds.map healthyDevice) present enabled
      = .ok (if ds.any (fun d =>
               d.dtype == DeviceType.modem && d.dstate == DeviceState.activated) then
               CellularState.Connected
             else if enabled || ds.any (fun d =>
               d.dtype == DeviceType.modem && d.dstate.is_enabled) then
               CellularState.Disconnected
             else if present || ds.any (fun d => d.dtype == DeviceType.modem) then
               CellularState.Disabled
             else
               CellularState.NotPresent) := by
  induction ds generalizing present enabled with
  | nil => cases present <;> cases enabled <;> simp [cellularLoop]
  | cons d rest ih =>
    by_cases ht : d.dtype = DeviceType.modem
    · by_cases ha : d.dstate = DeviceState.activated
      · simp [cellularLoop, healthyDevice, DeviceState.is_enabled, ht, ha]
      · by_cases hs : d.dstate.is_enabled
        · simp [cellularLoop, healthyDevice, ht, ha, hs, ih]
        · simp [cellularLoop, healthyDevice, ht, ha, hs, ih]
    · simp [cellularLoop, healthyDevice, ht, ih]

/-- Any-pointer lemma: when no element satisfies `f`, two predicates that
agree outside `f` give the same `any`. -/
lemma any_congr_of_none {α : Type} (f g h : α → Bool) (l : List α)
    (hfg : ∀ a, f a = false → g a = h a) (hf : l.any f = false) :
    l.any g = l.any h := by
  induction l with
  | nil => rfl
  | cons a t ih =>
    simp only [List.any_cons] at hf ⊢
    rcases Bool.or_eq_false_iff.mp hf with ⟨hfa, hft⟩
    rw [hfg a hfa, ih hft]

lemma modem_enabled_pointwise (d : DeviceSpec)
    (h : (d.dtype == DeviceType.modem && d.dstate == DeviceState.activated) = false) :
    (d.dtype == DeviceType.modem && d.dstate.is_enabled
        && !(d.dstate == DeviceState.activated))
      = (d.dtype == DeviceType.modem && d.dstate.is_enabled) := by
  rcases d with ⟨t, s⟩
  cases t <;> cases s <;> revert h <;> decide

lemma modem_present_pointwise (d : DeviceSpec)
    (h : (d.dtype == DeviceType.modem && d.dstate.is_enabled) = false) :
    (d.dtype == DeviceType.modem && !d.dstate.is_enabled)
      = (d.dtype == DeviceType.modem) := by
  rcases d with ⟨t, s⟩
  cases t <;> cases s <;> revert h <;> decide

/-- C5 counterexample: one Ethernet device whose state is enabled but not
activated.  The code (which tests is_enabled) reports Connected, while the
claim's policy (Connected only for an activated device) demands
Disconnected. -/
theorem C5_wired_counterexample :
    determine_wired_state
        [healthyDevice ⟨DeviceType.ethernet, DeviceState.enabledNotActivated⟩]
      = .ok WiredState.Connected
    ∧ wiredPolicySpec [⟨DeviceType.ethernet, DeviceState.enabledNotActivated⟩]
      = WiredState.Disconnected
    ∧ WiredState.Connected ≠ WiredState.Disconnected :=
  ⟨rfl, rfl, by decide⟩

/-- C5 (amended): for every device set D the wired state is Connected iff D
contains an Ethernet-type device in enabled state (which includes, but is not
limited to, the activated state); NotPresent iff D contains no Ethernet-type
device; otherwise Disconnected. -/
theorem C5_wired_amended (ds : List DeviceSpec) :
    determine_wired_state (ds.map healthyDevice)
      = .ok (if ds.any (fun d => d.dtype == DeviceType.ethernet && d.dstate.is_enabled) then
               WiredState.Connected
             else if ds.any (fun d => d.dtype == DeviceType.ethernet) then
               WiredState.Disconnected
             else
               WiredState.NotPresent) := by
  rw [determine_wired_state, wiredLoop_map_healthy]
  simp

/-- C6: for every device set D the cellular state follows the claim's
four-tier policy: Connected if some Modem-type device is activated, else
Disconnected if some Modem-type device is enabled but not activated, else
Disabled if some Modem-type device is present but not enabled, else
NotPresent. -/
theorem C6_cellular_policy (ds : List DeviceSpec) :
    determine_cellular_state (ds.map healthyDevice) = .ok (cellularPolicySpec ds) := by
  rw [determine_cellular_state, cellularLoop_map_healthy]
  unfold cellularPolicySpec
  by_cases hA : ds.any (fun d =>
      d.dtype == DeviceType.modem && d.dstate == DeviceState.activated)
  · simp [hA]
  · have hA0 : ds.any (fun d =>
        d.dtype == DeviceType.modem && d.dstate == DeviceState.activated) = false :=
      Bool.eq_false_iff.mpr hA
    have e1 := any_congr_of_none _ _ _ ds modem_enabled_pointwise hA0
    by_cases hE : ds.any (fun d => d.dtype == DeviceType.modem && d.dstate.is_enabled)
    · simp [hA0, hE, e1]
    · have hE0 : ds.any (fun d =>
          d.dtype == DeviceType.modem && d.dstate.is_enabled) = false :=
        Bool.eq_false_iff.mpr hE
      have e2 := any_congr_of_none _ _ _ ds modem_present_pointwise hE0
      simp [hA0, hE0, e1, e2]

/-- Whether an active-connection type string marks a VPN, per the claim. -/
def isVpnType (t : String) : Bool :=
  t == "vpn" || t == "wireguard"

/-- C7: for every set of active connections (all of whose Type queries
succeed), the VPN state is Connected with the placeholder name exactly when
some connection reports type "vpn" or "wireguard", and Disconnected
otherwise; the empty set gives Disconnected. -/
theorem C7_vpn_policy (ts : List String) :
    determine_vpn_state (ts.map healthyConnection)
      = .ok (if ts.any isVpnType then VpnState.Connected ⟨"unknown"⟩
             else VpnState.Disconnected) := by
  induction ts with
  | nil => simp [determine_vpn_state, vpnLoop]
  | cons t rest ih =>
    by_cases hv : t = "vpn" ∨ t = "wireguard"
    · simp only [determine_vpn_state, vpnLoop, healthyConnection, List.map_cons] at *
      have : isVpnType t = true := by
        rcases hv with h | h <;> simp [isVpnType, h]
      simp [hv, this]
    · simp only [determine_vpn_state, vpnLoop, healthyConnection, List.map_cons] at *
      have : isVpnType t = false := by
        simp only [isVpnType]
        rcases not_or.mp hv with ⟨h1, h2⟩
        simp [h1, h2]
      simp [hv, this, ih]

/-- strengh_to_level from src/modules/networkmanager.rs (its source spelling
kept): 0 below strength 5, a linear interpolation above. -/
def strengh_to_level (strength : Nat) (number_of_levels : Nat) : Nat :=
  if strength < 5 then 0
  else (strength - 5) * (number_of_levels - 1) / 100 + 1

/-- The nmcli reference staircase the source comments quote and claim C8
names, for five levels. -/
def referenceStaircase (s : Nat) : Nat :=
  if s < 5 then 0
  else if s < 30 then 1
  else if s < 55 then 2
  else if s < 80 then 3
  else 4

/-- C8: for strengths in 0..100 the bucketing returns 0 below 5 and the
linear interpolation above, and at five levels it reproduces the reference
staircase (0-4 to 0, 5-29 to 1, 30-54 to 2, 55-79 to 3, 80-100 to 4). -/
theorem C8_bucketing :
    (∀ s, s ≤ 100 → ∀ N, 1 ≤ N →
      strengh_to_level s N = if s < 5 then 0 else (s - 5) * (N - 1) / 100 + 1)
    ∧ ∀ s, s ≤ 100 → strengh_to_level s 5 = referenceStaircase s := by
  constructor
  · intro s _ N _
    rfl
  · decide

/-- The five wifi signal icons of NetworkManagerModule::into_widget
(src/modules/networkmanager.rs lines 113-124). -/
def wifiIcons : List String :=
  ["icon:network-wireless-signal-none-symbolic",
   "icon:network-wireless-signal-weak-symbolic",
   "icon:network-wireless-signal-ok-symbolic",
   "icon:network-wireless-signal-good-symbolic",
   "icon:network-wireless-signal-excellent-symbolic"]

/-- A zvariant value as the address-data entries carry them: the source
converts with String::try_from and u32::try_from, substituting the default
on a conversion failure. -/
inductive Variant where
  | vString (s : String)
  | vU32 (n : Nat)
  | vOther
deriving DecidableEq

/-- One entry of an IPv4 configuration's AddressData list: a mapping from
field names to variant values. -/
abbrev AddressEntry := List (String × Variant)

/-- String::try_from(value).unwrap_or_default() from state.rs line 193. -/
def variantToString : Variant → String
  | .vString s => s
  | _ => ""

/-- u32::try_from(value).unwrap_or_default() from state.rs line 194. -/
def variantToU32 : Variant → Nat
  | .vU32 n => n
  | _ => 0

/-- The remotely read properties of an access point. -/
structure APProps where
  ssid : Q String
  hw_address : Q String
  strength : Q Nat
deriving DecidableEq

/-- An access-point proxy: the path the builder bound it to, plus its
properties. -/
structure AccessPointDbusProxy where
  path : Path
  props : APProps
deriving DecidableEq

/-- The bus as determine_wifi_state reaches it beyond the device registry:
the ActiveAccessPoint property of the wireless facet of a device path, the
properties of an access-point path, and the AddressData list of an
IPv4-configuration path. -/
structure WifiBus where
  active_access_point : Path → Q Path
  ap_props : Path → APProps
  address_data : Path → Q (List AddressEntry)

/-- AccessPointDbusProxyBlocking::builder(...).path(p).build(): a proxy bound
to `p` answering with the bus's properties for `p`. -/
def buildAccessPoint (bus : WifiBus) (p : Path) : AccessPointDbusProxy :=
  ⟨p, bus.ap_props p⟩

/-- What a device-change aggregation pass reads: the device registry snapshot
and the bus. -/
structure WifiEnv where
  devices : List DeviceDbusProxy
  bus : WifiBus

/-- determine_wifi_state's device loop (state.rs lines 104-125): the first
Wi-Fi device that is enabled and reports an associated access point (path
different from "/") stops the scan; the flags record presence and
enabledness of Wi-Fi devices seen so far. -/
def wifiLoop (bus : WifiBus) :
    List DeviceDbusProxy → Bool → Bool →
      Q (Bool × Bool × Option (DeviceDbusProxy × AccessPointDbusProxy))
  | [], present, enabled => .ok (present, enabled, none)
  | d :: rest, present, enabled =>
    match d.device_type with
    | .error e => .error e
    | .ok t =>
      if t = DeviceType.wifi then
        match d.state with
        | .error e => .error e
        | .ok s =>
          if s.is_enabled then
            match bus.active_access_point d.path with
            | .error e => .error e
            | .ok apPath =>
              if apPath ≠ "/" then
                .ok (true, true, some (d, buildAccessPoint bus apPath))
              else wifiLoop bus rest true true
          else wifiLoop bus rest true enabled
      else wifiLoop bus rest present enabled

/-- Result of one determine_wifi_state call: the computed state, the
access-point pair after the call (the tracker field), and the path a
strength-changed watcher was freshly spawned for, if any. -/
structure WifiResult where
  wifi : WifiState
  tracked : Option Path
  spawned : Option Path
deriving DecidableEq

/-- determine_wifi_state from state.rs (lines 95-204).  `tracked` is the
access-point pair read from and written to client.access_point; the tracker
block reuses the existing watcher when the tracked path equals the freshly
resolved access point's path and otherwise installs the new pair and spawns
a strength watcher.  Every fallible step of the source is an explicit match:
in particular an empty AddressData list is the error "No address in
IP4Config", and missing address or prefix fields are errors too, while a
type-conversion failure yields the default value. -/
def determine_wifi_state (env : WifiEnv) (tracked : Option Path) : Q WifiResult :=
  match wifiLoop env.bus env.devices false false with
  | .error e => .error e
  | .ok (present, enabled, connected) =>
    match connected with
    | some (device, ap) =>
      let ssid := match ap.props.ssid with
        | .ok x => x
        | .error _ => "unkown"
      match ap.props.hw_address with
      | .error e => .error e
      | .ok bssid =>
        match device.ip4_config with
        | .error e => .error e
        | .ok cfgPath =>
          match env.bus.address_data cfgPath with
          | .error e => .error e
          | .ok addrData =>
            match addrData with
            | [] => .error "No address in IP4Config"
            | address :: _ =>
              match address.lookup "address" with
              | none => .error "IP address data object must have a address"
              | some ip4addr =>
                match address.lookup "prefix" with
                | none => .error "IP address data object must have a prefix"
                | some ip4pref =>
                  match ap.props.strength with
                  | .error e => .error e
                  | .ok strength =>
                    if tracked = some ap.path then
                      .ok ⟨WifiState.Connected
                             ⟨ssid, bssid, strength,
                              variantToString ip4addr, variantToU32 ip4pref⟩,
                           tracked, none⟩
                    else
                      .ok ⟨WifiState.Connected
                             ⟨ssid, bssid, strength,
                              variantToString ip4addr, variantToU32 ip4pref⟩,
                           some ap.path, some ap.path⟩
    | none =>
      .ok ⟨if enabled then WifiState.Disconnected
           else if present then WifiState.Disabled
           else WifiState.NotPresent,
           tracked, none⟩

/-- What one call of ClientInner::update_state_for_device_change leaves
behind: the published state and the tracker field. -/
structure PassResult where
  published : State
  tracked : Option Path
  spawned : Option Path
deriving DecidableEq

/-- ClientInner::update_state_for_device_change (mod.rs lines 42-50): the
snapshot is written only when all three technology computations succeed (the
question mark on any failure aborts the whole set call, so the Mutable keeps
the previous snapshot); vpn is always carried over from the previous
snapshot.  The tracker mutation of the Wi-Fi computation persists even when
the later cellular computation fails, since it happened inside
determine_wifi_state. -/
def update_state_for_device_change (prev : State) (tracked : Option Path)
    (env : WifiEnv) : PassResult :=
  match determine_wired_state env.devices with
  | .error _ => ⟨prev, tracked, none⟩
  | .ok wired =>
    match determine_wifi_state env tracked with
    | .error _ => ⟨prev, tracked, none⟩
    | .ok wres =>
      match determine_cellular_state env.devices with
      | .error _ => ⟨prev, wres.tracked, wres.spawned⟩
      | .ok cellular =>
        ⟨⟨wired, wres.wifi, cellular, prev.vpn⟩, wres.tracked, wres.spawned⟩

/-- A single enabled Wi-Fi device associated with access point "/ap1",
healthy except that its IPv4 configuration reports an empty AddressData
list. -/
def wifiDev1 : DeviceDbusProxy :=
  ⟨"/dev/wifi0", .ok DeviceType.wifi, .ok DeviceState.activated, .ok "/ipc0"⟩

/-- Access-point properties all of whose queries succeed. -/
def healthyAPProps : APProps :=
  ⟨.ok "network", .ok "aa:bb:cc:dd:ee:ff", .ok 70⟩

/-- The bus for env1: the device is associated with "/ap1", whose properties
are healthy, but every AddressData list is empty. -/
def bus1 : WifiBus :=
  ⟨fun _ => .ok "/ap1", fun _ => healthyAPProps, fun _ => .ok []⟩

/-- The aggregation environment in which only the Wi-Fi query fails: wired
and cellular scan the same single Wi-Fi device and succeed (NotPresent),
while the Wi-Fi computation dies on the empty AddressData list. -/
def env1 : WifiEnv :=
  ⟨[wifiDev1], bus1⟩

/-- The previously published snapshot used by the counterexamples. -/
def prev1 : State :=
  ⟨WiredState.Connected, WifiState.Unknown, CellularState.Unknown, VpnState.Unknown⟩

/-- C1 counterexample: in env1 exactly one technology's query fails (Wi-Fi;
wired and cellular both succeed, recomputing to NotPresent), yet the
published state still carries the previous wired value Connected instead of
the recomputed NotPresent: the whole pass was aborted, so the other
technologies did not update either. -/
theorem C1_stale_counterexample :
    (∃ e, determine_wifi_state env1 none = .error e)
    ∧ determine_wired_state env1.devices = .ok WiredState.NotPresent
    ∧ determine_cellular_state env1.devices = .ok CellularState.NotPresent
    ∧ (update_state_for_device_change prev1 none env1).published.wired
        = WiredState.Connected
    ∧ WiredState.Connected ≠ WiredState.NotPresent :=
  ⟨⟨"No address in IP4Config", rfl⟩, rfl, rfl, rfl, by decide⟩

/-- C1 (amended): if any of the three technology queries of a device-change
aggregation pass fails transiently, the entire pass is aborted and the
published State keeps all technologies at their previously published
values; no technology updates in that pass. -/
theorem C1_stale_amended (prev : State) (tracked : Option Path) (env : WifiEnv)
    (h : (∃ e, determine_wired_state env.devices = .error e)
       ∨ (∃ e, determine_wifi_state env tracked = .error e)
       ∨ (∃ e, determine_cellular_state env.devices = .error e)) :
    (update_state_for_device_change prev tracked env).published = prev := by
  unfold update_state_for_device_change
  cases hw : determine_wired_state env.devices with
  | error e => rfl
  | ok wired =>
    cases hwf : determine_wifi_state env tracked with
    | error e => rfl
    | ok wres =>
      cases hc : determine_cellular_state env.devices with
      | error e => rfl
      | ok cellular =>
        exfalso
        rcases h with ⟨e, he⟩ | ⟨e, he⟩ | ⟨e, he⟩
        · rw [hw] at he; exact Except.noConfusion he
        · rw [hwf] at he; exact Except.noConfusion he
        · rw [hc] at he; exact Except.noConfusion he

/-- C1 witness: the amended theorem applied to env1, where the Wi-Fi query
fails: the published snapshot is exactly the previous one. -/
theorem C1_stale_amended_witness :
    (update_state_for_device_change prev1 none env1).published = prev1 :=
  C1_stale_amended prev1 none env1
    (Or.inr (Or.inl ⟨"No address in IP4Config", rfl⟩))

/-- C2 counterexample: in env1 the connected device's IPv4 configuration
reports an empty AddressData list, and the Wi-Fi computation fails with the
"No address in IP4Config" error instead of succeeding with defaulted
fields. -/
theorem C2_empty_address_counterexample :
    env1.bus.address_data "/ipc0" = .ok []
    ∧ determine_wifi_state env1 none = .error "No address in IP4Config" :=
  ⟨rfl, rfl⟩

/-- C2 (amended): whenever the device scan resolves a connected pair whose
hardware-address and IPv4-configuration queries succeed but the
IPv4 configuration reports an empty AddressData list, determine_wifi_state
fails with the error "No address in IP4Config" (aborting the aggregation
pass); the empty/zero defaults apply only to values that fail type
conversion, not to a missing address entry. -/
theorem C2_empty_address_amended (env : WifiEnv) (tracked : Option Path)
    (d : DeviceDbusProxy) (ap : AccessPointDbusProxy) (pres enab : Bool)
    (hloop : wifiLoop env.bus env.devices false false = .ok (pres, enab, some (d, ap)))
    (hbssid : ∃ b, ap.props.hw_address = .ok b)
    (hcfg : ∃ cp, d.ip4_config = .ok cp ∧ env.bus.address_data cp = .ok []) :
    determine_wifi_state env tracked = .error "No address in IP4Config" := by
  obtain ⟨b, hb⟩ := hbssid
  obtain ⟨cp, hcp, hdata⟩ := hcfg
  unfold determine_wifi_state
  rw [hloop]
  dsimp only
  rw [hb]
  dsimp only
  rw [hcp]
  dsimp only
  rw [hdata]

/-- C2 witness: the amended theorem applied to env1. -/
theorem C2_empty_address_amended_witness :
    determine_wifi_state env1 none = .error "No address in IP4Config" :=
  C2_empty_address_amended env1 none wifiDev1 ⟨"/ap1", healthyAPProps⟩ true true
    rfl ⟨"aa:bb:cc:dd:ee:ff", rfl⟩ ⟨"/ipc0", rfl, rfl⟩

/-- A path-keyed registry, as the HashMap fields of ClientInner: an
association list whose keys are kept unique by insertion. -/
abbrev PathMap (V : Type) := List (Path × V)

/-- Lookup by path. -/
def pmGet {V : Type} : PathMap V → Path → Option V
  | [], _ => none
  | (k, v) :: rest, p => if k = p then some v else pmGet rest p

/-- Removal of every binding of a path (the replacement half of
HashMap::insert). -/
def pmErase {V : Type} : PathMap V → Path → PathMap V
  | [], _ => []
  | (k, v) :: rest, p => if k = p then pmErase rest p else (k, v) :: pmErase rest p

/-- HashMap::insert semantics: the new binding replaces any existing binding
of the same path. -/
def pmInsert {V : Type} (m : PathMap V) (p : Path) (v : V) : PathMap V :=
  (p, v) :: pmErase m p

lemma pmGet_pmErase {V : Type} (m : PathMap V) (q p : Path) :
    pmGet (pmErase m q) p = if p = q then none else pmGet m p := by
  induction m with
  | nil => simp [pmErase, pmGet]
  | cons e rest ih =>
    rcases e with ⟨k, v⟩
    by_cases hp : p = q
    · subst hp
      by_cases hk : k = p
      · simp [pmErase, pmGet, hk, ih]
      · simp [pmErase, pmGet, hk, ih]
    · by_cases hk : k = q
      · have hkp : ¬ k = p := by
          rw [hk]; exact fun h => hp h.symm
        have hqp : ¬ q = p := fun h => hp h.symm
        simp [pmErase, pmGet, hk, hp, hkp, hqp, ih]
      · simp [pmErase, pmGet, hk, hp, ih]

lemma pmGet_pmInsert {V : Type} (m : PathMap V) (q p : Path) (v : V) :
    pmGet (pmInsert m q v) p = if p = q then some v else pmGet m p := by
  by_cases hp : p = q
  · simp [pmInsert, pmGet, hp]
  · have hqp : ¬ q = p := fun h => hp h.symm
    simp [pmInsert, pmGet, hp, hqp, pmGet_pmErase]

/-- The handle a registry holds for a device path (the built proxy, keyed by
and remembering its path). -/
structure DeviceHandle where
  path : Path
deriving DecidableEq

/-- The handle a registry holds for an active-connection path. -/
structure ActiveConnectionHandle where
  path : Path
deriving DecidableEq

/-- DeviceDbusProxyBlocking::builder(...).path(p).build() as the list
watcher's factory: a handle bound to `p`. -/
def mkDeviceHandle (p : Path) : DeviceHandle := ⟨p⟩

/-- The handle a resync leaves at a surviving path: the reused old handle
when the path was registered, a freshly built one otherwise. -/
def reuseOr {V : Type} (old : PathMap V) (factory : Path → V) (p : Path) : V :=
  match pmGet old p with
  | some v => v
  | none => factory p

/-- The resync of the spawn_path_list_watcher macro (mod.rs lines 92-110):
a fresh map is built from the re-read path list, reusing the registry's
handle when the path is already present and invoking the builder otherwise;
paths absent from the new list are dropped with the old map. -/
def resync_path_map {V : Type} (old : PathMap V) (new_paths : List Path)
    (factory : Path → V) : PathMap V :=
  new_paths.foldl
    (fun m p =>
      match pmGet old p with
      | some v => pmInsert m p v
      | none => pmInsert m p (factory p))
    []

/-- One iteration of a list watcher after a list-changed notification
(mod.rs lines 91-122): the registry is resynced, and the property-watcher
arm then runs once for every path of the re-read list (the source iterates
over all of new_paths, not over the newly added paths), so the second
component is the list of paths a new Item Watcher is spawned for. -/
def list_watcher_iteration {V : Type} (old : PathMap V) (new_paths : List Path)
    (factory : Path → V) : PathMap V × List Path :=
  (resync_path_map old new_paths factory, new_paths)

lemma pmGet_resync_aux {V : Type} (old : PathMap V) (factory : Path → V)
    (new_paths : List Path) (acc : PathMap V) (p : Path) :
    pmGet (new_paths.foldl
        (fun m q =>
          match pmGet old q with
          | some v => pmInsert m q v
          | none => pmInsert m q (factory q))
        acc) p
      = if p ∈ new_paths then some (reuseOr old factory p) else pmGet acc p := by
  induction new_paths generalizing acc with
  | nil => simp
  | cons q rest ih =>
    rw [List.foldl_cons, ih]
    by_cases hr : p ∈ rest
    · rw [if_pos hr, if_pos (List.mem_cons_of_mem q hr)]
    · rw [if_neg hr]
      by_cases hq : p = q
      · subst hq
        rw [if_pos (List.mem_cons_self p rest)]
        cases hold : pmGet old p with
        | some v => simp [pmGet_pmInsert, reuseOr, hold]
        | none => simp [pmGet_pmInsert, reuseOr, hold]
      · have hmem : ¬ p ∈ q :: rest := by
          simp [List.mem_cons, hq, hr]
        rw [if_neg hmem]
        cases hold : pmGet old q <;>
          rw [pmGet_pmInsert, if_neg hq]

lemma pmGet_resync {V : Type} (old : PathMap V) (new_paths : List Path)
    (factory : Path → V) (p : Path) :
    pmGet (resync_path_map old new_paths factory) p
      = if p ∈ new_paths then some (reuseOr old factory p) else none := by
  rw [resync_path_map, pmGet_resync_aux]
  rfl

/-- A registry that already holds a handle for path "/d1". -/
def dupWatcherRegistry : PathMap DeviceHandle :=
  [("/d1", ⟨"/d1"⟩)]

/-- C4 counterexample: the registry already contains "/d1" and the re-read
list is exactly ["/d1"], so no path is genuinely new; the claim says no Item
Watcher is spawned, but the iteration spawns one for "/d1". -/
theorem C4_spawn_counterexample :
    pmGet dupWatcherRegistry "/d1" = some ⟨"/d1"⟩
    ∧ (list_watcher_iteration dupWatcherRegistry ["/d1"] mkDeviceHandle).2 = ["/d1"]
    ∧ (["/d1"] : List Path) ≠ [] :=
  ⟨rfl, rfl, by decide⟩

/-- C4 (amended): on every list-changed notification an Item Watcher is
spawned for every path of the re-read list, including paths that were
already in the registry (so unchanged paths do acquire duplicate watchers);
the resync itself reuses the existing handle for surviving paths and
creates a handle only for genuinely new paths. -/
theorem C4_spawn_amended (old : PathMap DeviceHandle) (new_paths : List Path)
    (p : Path) (hp : p ∈ new_paths) :
    p ∈ (list_watcher_iteration old new_paths mkDeviceHandle).2
    ∧ pmGet (list_watcher_iteration old new_paths mkDeviceHandle).1 p
        = some (reuseOr old mkDeviceHandle p) := by
  refine ⟨hp, ?_⟩
  rw [list_watcher_iteration, pmGet_resync, if_pos hp]

/-- C4 witness: the amended theorem at the counterexample input: "/d1" was
already registered, a watcher is spawned for it anyway, and its handle is
reused rather than recreated. -/
theorem C4_spawn_amended_witness :
    "/d1" ∈ (list_watcher_iteration dupWatcherRegistry ["/d1"] mkDeviceHandle).2
    ∧ pmGet (list_watcher_iteration dupWatcherRegistry ["/d1"] mkDeviceHandle).1 "/d1"
        = some ⟨"/d1"⟩ :=
  C4_spawn_amended dupWatcherRegistry ["/d1"] "/d1" (by decide)

/-- The startup initialization of the devices registry (mod.rs lines
177-187): a local map is filled with one freshly built proxy per enumerated
path and then assigned to the registry field. -/
def initialize_devices (enumerated : List Path) : PathMap DeviceHandle :=
  enumerated.foldl (fun m p => pmInsert m p (mkDeviceHandle p)) []

/-- The startup initialization of the active-connections registry (mod.rs
lines 161-175), exactly as the source performs it: an empty local map is
created, the loop inserts one freshly built proxy per enumerated path
directly into the registry field, and the final statement then assigns the
still-empty local map over that field, discarding everything the loop
inserted. -/
def initialize_active_connections (enumerated : List Path) :
    PathMap ActiveConnectionHandle :=
  let _fieldAfterLoop : PathMap ActiveConnectionHandle :=
    enumerated.foldl (fun m p => pmInsert m p ⟨p⟩) []
  let localActiveConnections : PathMap ActiveConnectionHandle := []
  localActiveConnections

/-- C3: evaluation at the failing input.  With one enumerated active
connection "/ac1" the devices-side initialization does hold one handle per
enumerated path, but the active-connections registry ends empty: the map the
loop populated was overwritten by the empty local map, so the registry holds
no handle for "/ac1" when the claim requires exactly one. -/
theorem C3_initial_enumeration_bug :
    initialize_devices ["/d1"] = [("/d1", ⟨"/d1"⟩)]
    ∧ initialize_active_connections ["/ac1"] = []
    ∧ pmGet (initialize_active_connections ["/ac1"]) "/ac1" = none :=
  ⟨rfl, rfl, rfl⟩

/-- The aggregation environment of one tracker pass: a single Wi-Fi device,
healthy bus data, associated with the given access point (none stands for
the "/" no-association marker). -/
def assocEnv (assoc : Option Path) : WifiEnv :=
  ⟨[⟨"/dev/wifi0", .ok DeviceType.wifi, .ok DeviceState.activated, .ok "/ipc0"⟩],
   ⟨fun _ => .ok (assoc.getD "/"),
    fun _ => healthyAPProps,
    fun _ => .ok [[("address", Variant.vString "192.168.1.2"),
                   ("prefix", Variant.vU32 24)]]⟩⟩

/-- The break condition of the spawned strength watcher (state.rs lines
174-180): the watcher bound to path p exits on wake only when the tracker
pair currently holds a different path; when the pair holds p, or holds
nothing, the watcher keeps running. -/
def watcherSurvives (tracked : Option Path) (p : Path) : Bool :=
  match tracked with
  | none => true
  | some q => q == p

/-- The observable tracker state across aggregation passes: the pair held in
client.access_point, the strength watchers currently alive, and how many
watcher creations and teardowns have happened. -/
structure TrackerTrace where
  tracked : Option Path
  live : List Path
  creations : Nat
  teardowns : Nat
deriving DecidableEq

/-- One aggregation pass of the Access-Point Tracker: determine_wifi_state
runs against the pass's association; a freshly spawned watcher joins the
live set, and every live watcher then wakes once and self-terminates iff its
break condition fires. -/
def trackerStep (t : TrackerTrace) (assoc : Option Path) : TrackerTrace :=
  match determine_wifi_state (assocEnv assoc) t.tracked with
  | .error _ => t
  | .ok r =>
    let live := t.live ++ (match r.spawned with | some p => [p] | none => [])
    let survivors := live.filter (watcherSurvives r.tracked)
    ⟨r.tracked, survivors,
     t.creations + (match r.spawned with | some _ => 1 | none => 0),
     t.teardowns + (live.length - survivors.length)⟩

/-- A sequence of passes starting from the empty tracker. -/
def trackerRun (assocs : List (Option Path)) : TrackerTrace :=
  assocs.foldl trackerStep ⟨none, [], 0, 0⟩

/-- C9 counterexample: over the association sequence AP1, AP1, AP2, none,
the tracker performs exactly two watcher creations but only ONE teardown
(AP1's watcher when AP2 replaces it): the claim's second teardown never
happens, because the tracked pair is never cleared when the association
ends, so AP2's watcher's break condition never fires. -/
theorem C9_churn_counterexample :
    (trackerRun [some "/ap1", some "/ap1", some "/ap2", none]).creations = 2
    ∧ (trackerRun [some "/ap1", some "/ap1", some "/ap2", none]).teardowns = 1
    ∧ (1 : Nat) ≠ 2 :=
  ⟨rfl, rfl, by decide⟩

/-- C9 (amended): over the association sequence AP1, AP1, AP2, none, exactly
two watcher creations occur (none on the repeated AP1) and exactly one
teardown (AP1's watcher when AP2 replaces it); after the association ends
the pair still holds AP2 and AP2's watcher is still alive. -/
theorem C9_churn_amended :
    trackerRun [some "/ap1", some "/ap1", some "/ap2", none]
      = ⟨some "/ap2", ["/ap2"], 2, 1⟩ :=
  rfl

/-- C10: for every strength up to 100 the computed level indexes the
five-element icon array in bounds, and the bound fails beyond the documented
range: the u8 strength 255 yields level 11, out of bounds. -/
theorem C10_icon_index_bounds :
    (∀ s, s ≤ 100 → strengh_to_level s 5 < wifiIcons.length)
    ∧ ¬ strengh_to_level 255 5 < wifiIcons.length
    ∧ strengh_to_level 255 5 = 11 := by
  refine ⟨?_, by decide, by decide⟩
  decide

end Ironbar
